import Mathlib

/-!
Verification of the PDF compliance analyzer (`src/server.py`).

The analysis engine is shallowly embedded: page texts and table cells are
`String`s, tables are `List (List String)`, numeric values are `ℚ` (Python
floats modelled as exact rationals), fallible parsing returns `Option ℚ`,
and Python's `round(x, 2)` (round half to even) is modelled exactly on `ℚ`.
Python string primitives (`lower`, `upper`, `strip`, `find`, `rfind`,
`split`, substring `in`) are modelled on `List Char`.
-/

namespace PdfCompliance

/-! ## Character/string utilities mirroring Python primitives -/

/-- Python `str.lower()` (ASCII case mapping suffices for the inputs used). -/
def lowerChars (l : List Char) : List Char := l.map Char.toLower

/-- Python `str.upper()`. -/
def upChars (l : List Char) : List Char := l.map Char.toUpper

/-- Python `str.strip()`: drop whitespace from both ends. -/
def trimChars (l : List Char) : List Char :=
  ((l.dropWhile Char.isWhitespace).reverse.dropWhile Char.isWhitespace).reverse

/-- Python `str.find(sub)`: index of the first occurrence of `needle` in `hay`. -/
def findSub (needle : List Char) : List Char → Option Nat
  | [] => if needle = [] then some 0 else none
  | a :: t =>
    if needle.isPrefixOf (a :: t) then some 0
    else (findSub needle t).map (· + 1)

/-- Python `sub in s`: substring containment. -/
def containsSub (needle hay : List Char) : Bool := (findSub needle hay).isSome

/-- Python `str.rfind(sub)`: index of the last occurrence of `needle` in `hay`. -/
def rfindSub (needle : List Char) : List Char → Option Nat
  | [] => if needle = [] then some 0 else none
  | a :: t =>
    match rfindSub needle t with
    | some i => some (i + 1)
    | none => if needle.isPrefixOf (a :: t) then some 0 else none

/-- Python `str.split()`: split on whitespace runs, dropping empty pieces. -/
def splitWords (l : List Char) : List (List Char) :=
  let st := l.foldl
    (fun (st : List (List Char) × List Char) c =>
      if c.isWhitespace then
        (if st.2 = [] then st else (st.2.reverse :: st.1, []))
      else (st.1, c :: st.2))
    ([], [])
  (if st.2 = [] then st.1 else st.2.reverse :: st.1).reverse

/-- Value of a decimal digit character. -/
def digitVal (c : Char) : Nat := c.toNat - 48

/-- Digits of a decimal numeral read as a natural number. -/
def digitsToNat (l : List Char) : Nat :=
  l.foldl (fun a c => a * 10 + digitVal c) 0

/-- Python `float(s)` restricted to strings of digits and dots (the only
shape reaching it inside `parse_currency` after cleaning): succeeds iff
there is at least one digit and at most one dot. -/
def floatOfDigits (l : List Char) : Option ℚ :=
  if l.count '.' ≤ 1 ∧ l.any Char.isDigit then
    let ip := l.takeWhile (· ≠ '.')
    let fp := (l.dropWhile (· ≠ '.')).drop 1
    some ((digitsToNat ip : ℚ) + (digitsToNat fp : ℚ) / (10 : ℚ) ^ fp.length)
  else none

/-- Python `round(·)` to an integer: round half to even. -/
def rhe (q : ℚ) : ℤ :=
  let f := ⌊q⌋
  if q < f + 1/2 then f
  else if q > f + 1/2 then f + 1
  else if f % 2 = 0 then f else f + 1

/-- Python `round(x, 2)`. -/
def round2 (q : ℚ) : ℚ := (rhe (q * 100) : ℚ) / 100

/-! ## `parse_currency` (server.py lines 67-102) -/

/-- The tokens mapped to zero at server.py line 79 (compared after
`str.strip()`, so whitespace-only input also reaches the `""` entry). -/
def placeholderTokens : List (List Char) :=
  ["", "-", "—", "–", "N/A", "n/a"].map String.data

/-- Line 86: `re.sub(r"[^\d.]", "", text)` — keep only digits and dots. -/
def cleanDigits (t : List Char) : List Char :=
  t.filter (fun c => c.isDigit || c == '.')

/-- Lines 94-97: the millions/thousands multiplier applied to the parsed
magnitude, keyed on the uppercased (stripped) literal. -/
def applyMult (t : List Char) (v : ℚ) : ℚ :=
  let up := upChars t
  if containsSub "M".data up && !(containsSub "MANAGEMENT".data up) then v * 1000000
  else if containsSub "K".data up then v * 1000
  else v

/-- `parse_currency` (server.py lines 67-102). `None` input does not arise in
the embedding; the falsy guard at line 72 therefore fires exactly on `""`. -/
def parse_currency (text : String) : Option ℚ :=
  if text.data = [] then none
  else
    let t := trimChars text.data
    if placeholderTokens.contains t then some 0
    else
      let isNeg := t.contains '(' && t.contains ')'
      let cleaned := cleanDigits t
      if cleaned = [] then none
      else
        match floatOfDigits cleaned with
        | none => none
        | some v =>
          let v2 := applyMult t v
          some (if isNeg then -v2 else v2)

/-! ## `search_text_in_pdf` (server.py lines 105-126) -/

/-- The result dictionary of `search_text_in_pdf`. -/
structure SearchHit where
  found : Bool
  page : Option Nat
  excerpt : Option String
deriving DecidableEq

/-- Lines 117-118 and 123: `text[max(0, pos-100) : min(len(text), pos+200)].strip()`. -/
def excerpt_of (text : List Char) (pos : Nat) : List Char :=
  let s := pos - 100
  let e := min text.length (pos + 200)
  trimChars ((text.drop s).take (e - s))

/-- The page loop of `search_text_in_pdf`; `n` is the number of pages
already scanned (page numbers are 1-based). -/
def search_pages (pages terms : List String) (n : Nat) : SearchHit :=
  match pages with
  | [] => ⟨false, none, none⟩
  | text :: rest =>
    match terms.findSome? (fun term => findSub (lowerChars term.data) (lowerChars text.data)) with
    | some pos => ⟨true, some (n + 1), some (String.mk (excerpt_of text.data pos))⟩
    | none => search_pages rest terms (n + 1)

/-- `search_text_in_pdf` (server.py lines 105-126), over the list of page texts. -/
def search_text_in_pdf (pages terms : List String) : SearchHit :=
  search_pages pages terms 0

/-! ## `validate_financial_math` (server.py lines 296-450), per table -/

/-- A Column Sum Mismatch record (numeric fields; lines 416-430). -/
structure ColSumDisc where
  column : Nat
  calculated_sum : ℚ
  reported_sum : ℚ
  difference : ℚ
deriving DecidableEq

/-- A Balance Sheet Imbalance record (numeric fields; lines 346-359). -/
structure BalanceDisc where
  assets : ℚ
  liabilities_equity : ℚ
  difference : ℚ
deriving DecidableEq

/-- An Income Statement Mismatch record (numeric fields; lines 381-396). -/
structure IncomeDisc where
  revenue : ℚ
  expenses : ℚ
  expected_net : ℚ
  reported_net : ℚ
  difference : ℚ
deriving DecidableEq

/-- A discrepancy emitted by `validate_financial_math`. -/
inductive Discrepancy where
  | balance (b : BalanceDisc)
  | income (i : IncomeDisc)
  | colsum (c : ColSumDisc)
deriving DecidableEq

/-- The `difference` field shared by all three discrepancy kinds. -/
def Discrepancy.difference : Discrepancy → ℚ
  | .balance b => b.difference
  | .income i => i.difference
  | .colsum c => c.difference

/-- Line 328: the page-text condition guarding the balance-sheet check. -/
def balance_phrase (page_text : String) : Bool :=
  containsSub "balance sheet".data (lowerChars page_text.data) ||
  containsSub "statement of financial position".data (lowerChars page_text.data)

/-- Line 362: the page-text condition guarding the income-statement check. -/
def income_phrase (page_text : String) : Bool :=
  containsSub "income statement".data (lowerChars page_text.data) ||
  containsSub "statement of operations".data (lowerChars page_text.data)

/-- Lines 333-341: the row scan assigning assets/liabilities/equity (later
matching rows overwrite earlier ones; values parsed from column 1). -/
def balance_rows (td : List (List String)) : Option ℚ × Option ℚ × Option ℚ :=
  td.foldl
    (fun st row =>
      if 2 ≤ row.length then
        let label := lowerChars (row.getD 0 "").data
        if containsSub "total assets".data label then
          (parse_currency (row.getD 1 ""), st.2.1, st.2.2)
        else if containsSub "total liabilities".data label then
          (st.1, parse_currency (row.getD 1 ""), st.2.2)
        else if containsSub "total equity".data label || containsSub "total stockholders".data label then
          (st.1, st.2.1, parse_currency (row.getD 1 ""))
        else st
      else st)
    (none, none, none)

/-- Lines 328-359: the balance-sheet check for one table. The guard at line
343 is Python truthiness (`if assets and liabilities and equity`), so a
value of `None` **or** `0.0` suppresses the check. -/
def balance_check (page_text : String) (td : List (List String)) : Option BalanceDisc :=
  if balance_phrase page_text then
    match balance_rows td with
    | (some a, some l, some e) =>
      if a ≠ 0 ∧ l ≠ 0 ∧ e ≠ 0 then
        let diff := |a - (l + e)|
        if diff > 1/100 then some ⟨a, l + e, round2 diff⟩ else none
      else none
    | _ => none
  else none

/-- Lines 367-375: the row scan assigning revenue/expenses/net income. -/
def income_rows (td : List (List String)) : Option ℚ × Option ℚ × Option ℚ :=
  td.foldl
    (fun st row =>
      if 2 ≤ row.length then
        let label := lowerChars (row.getD 0 "").data
        if containsSub "total revenue".data label || containsSub "net revenue".data label then
          (parse_currency (row.getD 1 ""), st.2.1, st.2.2)
        else if containsSub "total expenses".data label || containsSub "total operating expenses".data label then
          (st.1, parse_currency (row.getD 1 ""), st.2.2)
        else if containsSub "net income".data label || containsSub "net loss".data label then
          (st.1, st.2.1, parse_currency (row.getD 1 ""))
        else st
      else st)
    (none, none, none)

/-- Lines 362-396: the income-statement check for one table (here the guard
is `is not None`, with no truthiness pitfall). -/
def income_check (page_text : String) (td : List (List String)) : Option IncomeDisc :=
  if income_phrase page_text then
    match income_rows td with
    | (some r, some ex, some ni) =>
      let expected := r - ex
      let diff := |expected - ni|
      if diff > 1/100 then some ⟨r, ex, round2 expected, ni, round2 diff⟩ else none
    | _ => none
  else none

/-- Lines 403-408: the non-null parsed values of column `c` over **all rows
except the final one** (the header row included). -/
def colsum_numbers (td : List (List String)) (c : Nat) : List ℚ :=
  (td.take (td.length - 1)).filterMap
    (fun row => if c < row.length then parse_currency (row.getD c "") else none)

/-- Lines 412-413: the parsed value of column `c` in the final row. -/
def colsum_reported (td : List (List String)) (c : Nat) : Option ℚ :=
  let last := td.getLastD []
  if c < last.length then parse_currency (last.getD c "") else none

/-- Lines 398-430: the column-sum check for one table. `range(1, num_cols)`
is embedded as `List.range' 1 (num_cols - 1)`. -/
def column_sum_check (td : List (List String)) : List ColSumDisc :=
  if 3 ≤ td.length then
    let num_cols := (td.headD []).length
    (List.range' 1 (num_cols - 1)).filterMap
      (fun c =>
        let numbers := colsum_numbers td c
        if numbers ≠ [] then
          match colsum_reported td c with
          | some rep =>
            let calcSum := numbers.sum
            if |calcSum - rep| > 1/100 then
              some ⟨c + 1, round2 calcSum, round2 rep, round2 (calcSum - rep)⟩
            else none
          | none => none
        else none)
  else []

/-- Lines 320-430: all discrepancies `validate_financial_math` emits for one
table, in emission order (the table is skipped when it has `< 2` rows). -/
def validate_table (page_text : String) (td : List (List String)) : List Discrepancy :=
  if td.length < 2 then []
  else
    ((balance_check page_text td).toList.map .balance)
    ++ ((income_check page_text td).toList.map .income)
    ++ ((column_sum_check td).map .colsum)

/-! ## `extract_financial_statements` (server.py lines 196-289), per table -/

/-- Line 240: does the cell contain a 4-digit token starting `20`
(`re.search(r"20\d{2}", ·)`)? The scan tries each position left to right. -/
def find20dd : List Char → Option (List Char)
  | [] => none
  | a :: t =>
    match a, t with
    | '2', '0' :: c :: d :: _ =>
      if c.isDigit && d.isDigit then some ['2', '0', c, d] else find20dd t
    | _, _ => find20dd t

/-- `re.search(r"20\d{2}", s)` viewed as a Boolean test. -/
def has20dd (s : String) : Bool := (find20dd s.data).isSome

/-- Lines 248-263: the keyword vocabulary for key financial line items. -/
def fin_keywords : List String :=
  ["total assets", "total liabilities", "total equity", "stockholders", "revenue",
   "net income", "net loss", "total", "subtotal", "operating", "investing", "financing"]

/-- Lines 236-241: period labels from the header row (stripped cell text of
every header cell containing a 4-digit `20…` token, in header order). -/
def extract_periods (header : List String) : List String :=
  header.filterMap
    (fun cell => if has20dd cell then some (String.mk (trimChars cell.data)) else none)

/-- Lines 265-268: the per-period values recorded for one matching row.
`i` is the period's position in the detected-period list; the cell read is
`row[i + 1]`, not the header column where the period token was found. -/
def extract_row_values (periods : List String) (row : List String) : List (String × Option ℚ) :=
  periods.enum.filterMap
    (fun ip => if ip.1 + 1 < row.length then
        some (ip.2, parse_currency (row.getD (ip.1 + 1) ""))
      else none)

/-- Lines 243-269: the `key_items` mapping for one table (association list in
row order; row labels are stripped but otherwise literal). -/
def extract_key_items (td : List (List String)) : List (String × List (String × Option ℚ)) :=
  let periods := extract_periods (td.headD [])
  (td.drop 1).filterMap
    (fun row =>
      if 0 < row.length then
        let item_name := String.mk (trimChars (row.getD 0 "").data)
        if fin_keywords.any (fun k => containsSub k.data (lowerChars item_name.data)) then
          some (item_name, extract_row_values periods row)
        else none
      else none)

/-! ## `extract_comparative_periods` (server.py lines 668-771), per table -/

/-- Lexicographic strict order on strings by code point (Python `<`). -/
def lexLtChars : List Char → List Char → Bool
  | [], [] => false
  | [], _ :: _ => true
  | _ :: _, [] => false
  | a :: la, b :: lb => if a < b then true else if b < a then false else lexLtChars la lb

/-- Insert into a descending-sorted list (used to model Python
`sorted(keys, reverse=True)`; keys here are distinct). -/
def insertDesc (x : String) : List String → List String
  | [] => [x]
  | y :: ys => if lexLtChars x.data y.data then y :: insertDesc x ys else x :: y :: ys

/-- Python `sorted(l, reverse=True)` for distinct strings. -/
def sortDesc (l : List String) : List String := l.foldr insertDesc []

/-- Python dict assignment `d[k] = v`: update in place or append. -/
def upsert (k : String) (v : Nat) : List (String × Nat) → List (String × Nat)
  | [] => [(k, v)]
  | (k', v') :: t => if k = k' then (k, v) :: t else (k', v') :: upsert k v t

/-- Lines 693-698: the year → column-index dictionary from the header
(`match.group(1)` of the first `20\d{2}` match per cell; later duplicate
years overwrite the stored column). -/
def period_indices (header : List String) : List (String × Nat) :=
  header.enum.foldl
    (fun acc ic =>
      match find20dd ic.2.data with
      | some y => upsert (String.mk y) ic.1 acc
      | none => acc)
    []

/-- One period-over-period change entry (lines 743-748). -/
structure Change where
  absolute : ℚ
  percent : Option ℚ
  material : Bool
  direction : String
deriving DecidableEq

/-- Lines 731-748: the change computed for one adjacent (current, previous)
period pair. The percent is rounded to 2 decimals in the record, but
materiality is judged on the unrounded percent. -/
def mk_change (curr prev : ℚ) : Change :=
  let ab := curr - prev
  let pct : Option ℚ := if prev ≠ 0 then some ((curr - prev) / |prev| * 100) else none
  let material :=
    (match pct with
     | some p => decide (|p| > 10)
     | none => false) || decide (|ab| > 100000)
  { absolute := round2 ab
    percent := pct.map round2
    material := material
    direction := if ab > 0 then "increase" else "decrease" }

/-- Lines 725-748: the `changes` dictionary for one row, keyed
`"current_vs_previous"` over adjacent pairs of the descending period list. -/
def row_changes (sorted_periods : List String) (periods_data : List (String × ℚ)) :
    List (String × Change) :=
  (sorted_periods.zip sorted_periods.tail).filterMap
    (fun cp =>
      match periods_data.lookup cp.1, periods_data.lookup cp.2 with
      | some cv, some pv => some (cp.1 ++ "_vs_" ++ cp.2, mk_change cv pv)
      | _, _ => none)

/-- Lines 687-758: the comparative entries extracted from one table:
(metric, periods, changes) triples in row order. -/
def extract_comparative_table (td : List (List String)) :
    List (String × List (String × ℚ) × List (String × Change)) :=
  if td.length < 2 then []
  else
    let pidx := period_indices (td.headD [])
    if pidx.length < 2 then []
    else
      let sorted := sortDesc (pidx.map (·.1))
      (td.drop 1).filterMap
        (fun row =>
          if row.length < 2 then none
          else
            let metric := String.mk (trimChars (row.getD 0 "").data)
            if metric.length < 3 then none
            else
              let periods_data := pidx.filterMap
                (fun pc =>
                  if pc.2 < row.length then
                    (parse_currency (row.getD pc.2 "")).map (fun v => (pc.1, v))
                  else none)
              if periods_data.length < 2 then none
              else
                let changes := row_changes sorted periods_data
                if changes = [] then none
                else some (metric, periods_data, changes))

/-! ## `check_required_signatures` (server.py lines 458-571) -/

/-- Lines 539-544: a required signature label is satisfied when some found
role's uppercase form contains (as a substring) one of the required label's
uppercase whitespace-split tokens. -/
def sig_satisfied (required : String) (found_roles : List String) : Bool :=
  found_roles.any
    (fun role => (splitWords (upChars required.data)).any
      (fun kw => containsSub kw (upChars role.data)))

/-- Lines 537-546: the required signatures left unsatisfied. -/
def missing_signatures (required found_roles : List String) : List String :=
  required.filter (fun r => !(sig_satisfied r found_roles))

/-- Line 548: `"COMPLETE" if not missing_signatures else "INCOMPLETE"`. -/
def compliance_status (required found_roles : List String) : String :=
  if missing_signatures required found_roles = [] then "COMPLETE" else "INCOMPLETE"

/-- Lines 521-533: the required-signature set per document type (the
Invoice threshold test is Python truthiness on the optional amount). -/
def required_signatures (doc_type : String) (invoice_amount : Option ℚ) : List String :=
  if doc_type = "SOX 404" then ["CFO Certification", "CEO Certification"]
  else if doc_type = "10-K" then ["CEO Signature", "CFO Signature", "CAO Signature"]
  else if doc_type = "8-K" then ["Authorized Signer"]
  else if doc_type = "Invoice" then
    match invoice_amount with
    | some amt => if amt ≠ 0 ∧ amt > 10000 then ["Authorized Approver"] else []
    | none => []
  else []

/-! ## `detect_compliance_red_flags` context recovery (server.py lines 615-624) -/

/-- Line 617: the context keywords, tried in this fixed order. -/
def context_keywords : List String := ["note ", "item ", "section "]

/-- One keyword fails to produce a context when it has no occurrence before
the match, or its last such occurrence is not followed by a line break. -/
def kw_fail (text : List Char) (pos : Nat) (kw : String) : Bool :=
  match rfindSub kw.data ((lowerChars text).take pos) with
  | none => true
  | some cp => (findSub ['\n'] (text.drop cp)).isNone

/-- Lines 616-624: the keyword loop. For the first keyword whose last
occurrence before `pos` is followed by a `'\n'`, the context is the text
from that occurrence to the line break, stripped; otherwise the loop falls
through to the next keyword. -/
def context_loop (text : List Char) (pos : Nat) : List String → String
  | [] => "Unknown section"
  | kw :: rest =>
    match rfindSub kw.data ((lowerChars text).take pos) with
    | some cp =>
      match findSub ['\n'] (text.drop cp) with
      | some off => String.mk (trimChars ((text.drop cp).take off))
      | none => context_loop text pos rest
    | none => context_loop text pos rest

/-- The context reported for a red-flag match at position `pos` of `text`. -/
def red_flag_context (text : String) (pos : Nat) : String :=
  context_loop text.data pos context_keywords

/-- Lines 611-624: position of the first occurrence of `phrase` in the
lowercased page text, plus its recovered context (when the phrase occurs). -/
def red_flag_context_for (text phrase : String) : Option String :=
  (findSub (lowerChars phrase.data) (lowerChars text.data)).map (red_flag_context text)

/-! ## Supporting lemmas -/

/-- Evaluation of `digitVal` on the ten digit characters (a simp bundle). -/
theorem digitVals :
    digitVal '0' = 0 ∧ digitVal '1' = 1 ∧ digitVal '2' = 2 ∧ digitVal '3' = 3 ∧
    digitVal '4' = 4 ∧ digitVal '5' = 5 ∧ digitVal '6' = 6 ∧ digitVal '7' = 7 ∧
    digitVal '8' = 8 ∧ digitVal '9' = 9 := by
  decide

/-! ## Claim C3 -/

/-- C3 counterexample: the claim asserts `normalize("") == 0.0`, but the
falsy guard at server.py line 72 fires on the empty string before the
placeholder list is consulted, so `parse_currency ""` is `none`, not `0`. -/
theorem C3_cex : parse_currency "" = none ∧ parse_currency "" ≠ some 0 := by
  decide

/-- C3 (amended): the placeholder tokens `"-"`, em dash, en dash, `"N/A"`
(and whitespace-only strings, which strip to the empty token) normalize to
`0.0`; the empty string itself normalizes to null; and any nonempty,
non-placeholder text whose cleaned form contains no digits normalizes to
null, so "unparseable" is distinguished from "explicitly zero"
(`normalize("abc")` is null). -/
theorem C3_theorem :
    parse_currency "-" = some 0 ∧ parse_currency "—" = some 0 ∧
    parse_currency "–" = some 0 ∧ parse_currency "N/A" = some 0 ∧
    parse_currency "n/a" = some 0 ∧ parse_currency " " = some 0 ∧
    parse_currency "" = none ∧ parse_currency "abc" = none ∧
    (∀ s : String, s.data ≠ [] →
      placeholderTokens.contains (trimChars s.data) = false →
      (cleanDigits (trimChars s.data)).all (fun c => !c.isDigit) = true →
      parse_currency s = none) := by
  refine ⟨by decide, by decide, by decide, by decide, by decide, by decide,
    by decide, by decide, ?_⟩
  intro s h0 h1 h2
  have hany : (cleanDigits (trimChars s.data)).any Char.isDigit = false := by
    rw [List.any_eq_false]
    intro c hc
    have := List.all_eq_true.mp h2 c hc
    simpa using this
  unfold parse_currency
  rw [if_neg h0, if_neg (by simp only [h1]; exact Bool.false_ne_true)]
  by_cases hc : cleanDigits (trimChars s.data) = []
  · rw [if_pos hc]
  · rw [if_neg hc]
    have hfl : floatOfDigits (cleanDigits (trimChars s.data)) = none := by
      unfold floatOfDigits
      rw [if_neg]
      intro hand
      rw [hany] at hand
      exact absurd hand.2 (by simp)
    rw [hfl]

/-- C3 witness: the general null-on-no-digits clause applied at `"abc"`. -/
theorem C3_witness :
    ("abc" : String).data ≠ [] ∧
    placeholderTokens.contains (trimChars "abc".data) = false ∧
    (cleanDigits (trimChars "abc".data)).all (fun c => !c.isDigit) = true ∧
    parse_currency "abc" = none :=
  ⟨by decide, by decide, by decide,
    C3_theorem.2.2.2.2.2.2.2.2 "abc" (by decide) (by decide) (by decide)⟩

/-- `rhe` always lands on the floor or the floor plus one. -/
theorem rhe_eq_floor_or (q : ℚ) : rhe q = ⌊q⌋ ∨ rhe q = ⌊q⌋ + 1 := by
  unfold rhe
  dsimp only
  split
  · exact Or.inl rfl
  · split
    · exact Or.inr rfl
    · split
      · exact Or.inl rfl
      · exact Or.inr rfl

/-- A quantity exceeding 0.01 in absolute value still exceeds-or-meets 0.01
after Python's `round(·, 2)`. -/
theorem abs_round2_ge (x : ℚ) (h : |x| > 1/100) : 1/100 ≤ |round2 x| := by
  have h1 : 1 < |x * 100| := by
    rw [abs_mul]
    have h100 : |(100 : ℚ)| = 100 := by norm_num
    rw [h100]
    linarith
  have h2 : 1 ≤ |rhe (x * 100)| := by
    rcases lt_abs.mp h1 with hq | hq
    · have hf : 1 ≤ ⌊x * 100⌋ := by
        rw [Int.le_floor]
        exact_mod_cast le_of_lt hq
      rcases rhe_eq_floor_or (x * 100) with he | he <;> rw [he] <;>
        · rw [abs_of_nonneg (by omega)]
          omega
    · have hq' : x * 100 < -1 := by linarith
      have hf : ⌊x * 100⌋ < -1 := by
        rw [Int.floor_lt]
        exact_mod_cast hq'
      rcases rhe_eq_floor_or (x * 100) with he | he <;> rw [he] <;>
        · rw [abs_of_nonpos (by omega)]
          omega
  unfold round2
  have hc : (1 : ℚ) ≤ |((rhe (x * 100) : ℤ) : ℚ)| := by
    rw [← Int.cast_abs]
    exact_mod_cast h2
  rw [abs_div]
  have h100 : |(100 : ℚ)| = 100 := by norm_num
  rw [h100]
  linarith

/-- A Balance Sheet Imbalance's difference is the rounding of a quantity
exceeding 0.01 in absolute value. -/
theorem balance_diff_spec (pt : String) (td : List (List String)) (b : BalanceDisc)
    (h : balance_check pt td = some b) :
    ∃ x : ℚ, |x| > 1/100 ∧ b.difference = round2 x := by
  unfold balance_check at h
  split at h
  · split at h
    · split at h
      · dsimp only at h
        split at h
        case isTrue hgt =>
          obtain rfl := Option.some.inj h
          exact ⟨_, by rwa [abs_abs], rfl⟩
        case isFalse => exact Option.noConfusion h
      · exact Option.noConfusion h
    · exact Option.noConfusion h
  · exact Option.noConfusion h

/-- An Income Statement Mismatch's difference is the rounding of a quantity
exceeding 0.01 in absolute value. -/
theorem income_diff_spec (pt : String) (td : List (List String)) (i : IncomeDisc)
    (h : income_check pt td = some i) :
    ∃ x : ℚ, |x| > 1/100 ∧ i.difference = round2 x := by
  unfold income_check at h
  split at h
  · split at h
    · dsimp only at h
      split at h
      case isTrue hgt =>
        obtain rfl := Option.some.inj h
        exact ⟨_, by rwa [abs_abs], rfl⟩
      case isFalse => exact Option.noConfusion h
    · exact Option.noConfusion h
  · exact Option.noConfusion h

/-- A Column Sum Mismatch's difference is the rounding of a quantity
exceeding 0.01 in absolute value. -/
theorem colsum_diff_spec (td : List (List String)) (c : ColSumDisc)
    (h : c ∈ column_sum_check td) :
    ∃ x : ℚ, |x| > 1/100 ∧ c.difference = round2 x := by
  unfold column_sum_check at h
  split at h
  · rw [List.mem_filterMap] at h
    obtain ⟨a, _, hfa⟩ := h
    dsimp only at hfa
    split at hfa
    · split at hfa
      case h_1 rep heq =>
        split at hfa
        case isTrue hgt =>
          obtain rfl := Option.some.inj hfa
          exact ⟨_, hgt, rfl⟩
        case isFalse => exact Option.noConfusion hfa
      case h_2 => exact Option.noConfusion hfa
    · exact Option.noConfusion hfa
  · exact absurd h (List.not_mem_nil c)

/-! ## Claim C10 -/

/-- C10 counterexample: on the table `[["h","x"],["a","10"],["t","9.989"]]`
the column sum is 10 and the reported total 9.989, a gap of 0.011 > 0.01,
so a Column Sum Mismatch is emitted; but its `difference` field is
`round(0.011, 2) = 0.01`, and `|0.01| > 0.01` is false — refuting the
claimed strict invariant. -/
theorem C10_cex :
    (validate_table "" [["h","x"],["a","10"],["t","9.989"]]).map Discrepancy.difference =
      [1/100] ∧
    ¬(|(1 : ℚ)/100| > 1/100) := by
  constructor
  · have e1 : parse_currency "h" = none := by decide
    have e2 : parse_currency "x" = none := by decide
    have e3 : parse_currency "a" = none := by decide
    have e4 : parse_currency "t" = none := by decide
    have e5 : parse_currency "10" = some 10 := by
      norm_num +decide [parse_currency, placeholderTokens, trimChars, cleanDigits,
        floatOfDigits, applyMult, containsSub, findSub, upChars, digitsToNat, digitVals]
    have e6 : parse_currency "9.989" = some (9989/1000) := by
      norm_num +decide [parse_currency, placeholderTokens, trimChars, cleanDigits,
        floatOfDigits, applyMult, containsSub, findSub, upChars, digitsToNat, digitVals]
    have hr : List.range' 1 1 = [1] := rfl
    have hb : balance_phrase "" = false := by decide
    have hi : income_phrase "" = false := by decide
    have habs : |(11 : ℚ)/1000| = 11/1000 := abs_of_nonneg (by norm_num)
    norm_num +decide [validate_table, balance_check, income_check, hb, hi,
      column_sum_check, colsum_numbers, colsum_reported, habs, Function.comp,
      e1, e2, e3, e4, e5, e6, round2, rhe, hr, List.headD, List.getLastD, List.getD,
      List.filterMap_cons, List.filterMap_nil, Discrepancy.difference]
  · rw [abs_of_nonneg (by norm_num : (0 : ℚ) ≤ 1/100)]
    norm_num

/-- C10 (amended): every Discrepancy record emitted by the financial math
validator has `|difference| ≥ 0.01`: the `difference` field is the
underlying gap rounded to two decimals, the unrounded gap always exceeds
0.01 in absolute value, but rounding can bring the reported field down to
exactly 0.01. -/
theorem C10_theorem :
    ∀ (pt : String) (td : List (List String)) (d : Discrepancy),
      d ∈ validate_table pt td → 1/100 ≤ |d.difference| := by
  intro pt td d hd
  unfold validate_table at hd
  split at hd
  · exact absurd hd (List.not_mem_nil d)
  · rw [List.mem_append] at hd
    rcases hd with hd | hc
    · rw [List.mem_append] at hd
      rcases hd with hb | hi
      · rw [List.mem_map] at hb
        obtain ⟨b, hbmem, rfl⟩ := hb
        simp only [Option.mem_toList, Option.mem_def] at hbmem
        obtain ⟨x, hx, hdiff⟩ := balance_diff_spec pt td b hbmem
        show 1/100 ≤ |b.difference|
        rw [hdiff]
        exact abs_round2_ge x hx
      · rw [List.mem_map] at hi
        obtain ⟨i, himem, rfl⟩ := hi
        simp only [Option.mem_toList, Option.mem_def] at himem
        obtain ⟨x, hx, hdiff⟩ := income_diff_spec pt td i himem
        show 1/100 ≤ |i.difference|
        rw [hdiff]
        exact abs_round2_ge x hx
    · rw [List.mem_map] at hc
      obtain ⟨cc, hcmem, rfl⟩ := hc
      obtain ⟨x, hx, hdiff⟩ := colsum_diff_spec td cc hcmem
      show 1/100 ≤ |cc.difference|
      rw [hdiff]
      exact abs_round2_ge x hx

/-- C10 witness: the invariant applied to the concrete mismatch emitted for
`[["h","x"],["a","10"],["t","9.989"]]`, whose difference is exactly 0.01. -/
theorem C10_witness :
    Discrepancy.colsum ⟨2, 10, 999/100, 1/100⟩ ∈
      validate_table "" [["h","x"],["a","10"],["t","9.989"]] ∧
    1/100 ≤ |(Discrepancy.colsum ⟨2, 10, 999/100, 1/100⟩).difference| := by
  have hm : Discrepancy.colsum ⟨2, 10, 999/100, 1/100⟩ ∈
      validate_table "" [["h","x"],["a","10"],["t","9.989"]] := by
    have e1 : parse_currency "h" = none := by decide
    have e2 : parse_currency "x" = none := by decide
    have e3 : parse_currency "a" = none := by decide
    have e4 : parse_currency "t" = none := by decide
    have e5 : parse_currency "10" = some 10 := by
      norm_num +decide [parse_currency, placeholderTokens, trimChars, cleanDigits,
        floatOfDigits, applyMult, containsSub, findSub, upChars, digitsToNat, digitVals]
    have e6 : parse_currency "9.989" = some (9989/1000) := by
      norm_num +decide [parse_currency, placeholderTokens, trimChars, cleanDigits,
        floatOfDigits, applyMult, containsSub, findSub, upChars, digitsToNat, digitVals]
    have hr : List.range' 1 1 = [1] := rfl
    have hb : balance_phrase "" = false := by decide
    have hi : income_phrase "" = false := by decide
    have habs : |(11 : ℚ)/1000| = 11/1000 := abs_of_nonneg (by norm_num)
    norm_num +decide [validate_table, balance_check, income_check, hb, hi,
      column_sum_check, colsum_numbers, colsum_reported, habs,
      e1, e2, e3, e4, e5, e6, round2, rhe, hr, List.headD, List.getLastD, List.getD,
      List.filterMap_cons, List.filterMap_nil]
  exact ⟨hm, C10_theorem "" [["h","x"],["a","10"],["t","9.989"]] _ hm⟩

/-! ## Claim C1 -/

/-- C1 counterexample: on the table `[["hdr","2023"],["A","10"],["B","20"],
["Total","25"]]` the claim predicts `calculated_sum = 30`; but the row loop
at server.py line 404 runs over `range(len(table_data) - 1)`, which includes
the header row, whose cell `"2023"` parses as the number 2023 — so the
reported discrepancy has `calculated_sum = 2053` and `difference = 2028`. -/
theorem C1_cex :
    (column_sum_check [["hdr","2023"],["A","10"],["B","20"],["Total","25"]]).map
      (fun d => (d.calculated_sum, d.reported_sum, d.difference)) =
      [((2053 : ℚ), (25 : ℚ), (2028 : ℚ))] ∧
    ((2053 : ℚ), (25 : ℚ), (2028 : ℚ)) ≠ ((30 : ℚ), (25 : ℚ), (5 : ℚ)) := by
  constructor
  · have e1 : parse_currency "hdr" = none := by decide
    have e2 : parse_currency "2023" = some 2023 := by
      norm_num +decide [parse_currency, placeholderTokens, trimChars, cleanDigits,
        floatOfDigits, applyMult, containsSub, findSub, upChars, digitsToNat, digitVals]
    have e3 : parse_currency "10" = some 10 := by
      norm_num +decide [parse_currency, placeholderTokens, trimChars, cleanDigits,
        floatOfDigits, applyMult, containsSub, findSub, upChars, digitsToNat, digitVals]
    have e4 : parse_currency "20" = some 20 := by
      norm_num +decide [parse_currency, placeholderTokens, trimChars, cleanDigits,
        floatOfDigits, applyMult, containsSub, findSub, upChars, digitsToNat, digitVals]
    have e5 : parse_currency "25" = some 25 := by
      norm_num +decide [parse_currency, placeholderTokens, trimChars, cleanDigits,
        floatOfDigits, applyMult, containsSub, findSub, upChars, digitsToNat, digitVals]
    have hr : List.range' 1 1 = [1] := rfl
    norm_num +decide [column_sum_check, colsum_numbers, colsum_reported,
      e1, e2, e3, e4, e5, round2, rhe, hr, List.headD, List.getLastD, List.getD,
      List.filterMap_cons, List.filterMap_nil]
  · intro h
    rw [Prod.mk.injEq, Prod.mk.injEq] at h
    exact absurd h.1 (by norm_num)

/-- C1 (amended): for every table with at least 3 rows, the column-sum check
treats every column after the label column (up to the header width) as a
candidate total column, sums the parsed values of that column over **all
rows except the final one — the header row included** (skipping nulls), and
reports a Column Sum Mismatch exactly when at least one such value parsed,
the final row's value in that column parses, and the sum differs from it by
more than 0.01; for the table `[["hdr","2023"],["A","10"],["B","20"],
["Total","25"]]` the discrepancy has `calculated_sum = 2053`,
`reported_sum = 25` and `difference = 2028`. -/
theorem C1_theorem :
    (∀ (td : List (List String)) (c : Nat),
      3 ≤ td.length → 1 ≤ c → c < (td.headD []).length →
      ((∃ d ∈ column_sum_check td, d.column = c + 1) ↔
        (colsum_numbers td c ≠ [] ∧
          ∃ r, colsum_reported td c = some r ∧ |(colsum_numbers td c).sum - r| > 1/100))) ∧
    column_sum_check [["hdr","2023"],["A","10"],["B","20"],["Total","25"]] =
      [⟨2, 2053, 25, 2028⟩] := by
  constructor
  · intro td c h3 h1c hcw
    unfold column_sum_check
    rw [if_pos h3]
    constructor
    · rintro ⟨d, hd, hcol⟩
      rw [List.mem_filterMap] at hd
      obtain ⟨a, _, hfa⟩ := hd
      dsimp only at hfa
      split at hfa
      case isTrue hnum =>
        split at hfa
        case h_1 rep heq =>
          split at hfa
          case isTrue hgt =>
            obtain rfl : _ = d := Option.some.inj hfa
            have hac : a = c := by
              have : a + 1 = c + 1 := hcol
              omega
            subst hac
            exact ⟨hnum, rep, heq, hgt⟩
          case isFalse => exact Option.noConfusion hfa
        case h_2 => exact Option.noConfusion hfa
      case isFalse => exact Option.noConfusion hfa
    · rintro ⟨hnum, r, hrep, hgt⟩
      refine ⟨⟨c + 1, round2 (colsum_numbers td c).sum, round2 r,
        round2 ((colsum_numbers td c).sum - r)⟩, ?_, rfl⟩
      rw [List.mem_filterMap]
      refine ⟨c, ?_, ?_⟩
      · rw [List.mem_range'_1]
        omega
      · dsimp only
        rw [if_pos hnum, hrep]
        dsimp only
        rw [if_pos hgt]
  · have e1 : parse_currency "hdr" = none := by decide
    have e2 : parse_currency "2023" = some 2023 := by
      norm_num +decide [parse_currency, placeholderTokens, trimChars, cleanDigits,
        floatOfDigits, applyMult, containsSub, findSub, upChars, digitsToNat, digitVals]
    have e3 : parse_currency "10" = some 10 := by
      norm_num +decide [parse_currency, placeholderTokens, trimChars, cleanDigits,
        floatOfDigits, applyMult, containsSub, findSub, upChars, digitsToNat, digitVals]
    have e4 : parse_currency "20" = some 20 := by
      norm_num +decide [parse_currency, placeholderTokens, trimChars, cleanDigits,
        floatOfDigits, applyMult, containsSub, findSub, upChars, digitsToNat, digitVals]
    have e5 : parse_currency "25" = some 25 := by
      norm_num +decide [parse_currency, placeholderTokens, trimChars, cleanDigits,
        floatOfDigits, applyMult, containsSub, findSub, upChars, digitsToNat, digitVals]
    have hr : List.range' 1 1 = [1] := rfl
    norm_num +decide [column_sum_check, colsum_numbers, colsum_reported,
      e1, e2, e3, e4, e5, round2, rhe, hr, List.headD, List.getLastD, List.getD,
      List.filterMap_cons, List.filterMap_nil]

/-- C1 witness: the general clause applied to the example table at column
index 1, with every hypothesis discharged. -/
theorem C1_witness :
    3 ≤ ([["hdr","2023"],["A","10"],["B","20"],["Total","25"]] : List (List String)).length ∧
    1 ≤ 1 ∧
    1 < (([["hdr","2023"],["A","10"],["B","20"],["Total","25"]] : List (List String)).headD []).length ∧
    ((∃ d ∈ column_sum_check [["hdr","2023"],["A","10"],["B","20"],["Total","25"]], d.column = 1 + 1) ↔
      (colsum_numbers [["hdr","2023"],["A","10"],["B","20"],["Total","25"]] 1 ≠ [] ∧
        ∃ r, colsum_reported [["hdr","2023"],["A","10"],["B","20"],["Total","25"]] 1 = some r ∧
          |(colsum_numbers [["hdr","2023"],["A","10"],["B","20"],["Total","25"]] 1).sum - r| > 1/100)) :=
  ⟨by decide, by decide, by decide,
    C1_theorem.1 [["hdr","2023"],["A","10"],["B","20"],["Total","25"]] 1
      (by decide) (by decide) (by decide)⟩

/-! ## Claim C2 -/

/-- C2 counterexample: on a balance-sheet page, the table
`[["Total assets","0"],["Total liabilities","60"],["Total equity","40"]]`
has all three governing values parsing to non-null numbers and
`|0 − (60+40)| > 0.01`, so the claim demands an imbalance report; but the
guard at server.py line 343 is `if assets and liabilities and equity`
(Python truthiness), and `assets == 0.0` is falsy, so no report is made. -/
theorem C2_cex :
    balance_rows [["Total assets","0"],["Total liabilities","60"],["Total equity","40"]] =
      (some 0, some 60, some 40) ∧
    |(0 : ℚ) - (60 + 40)| > 1/100 ∧
    balance_check "balance sheet"
      [["Total assets","0"],["Total liabilities","60"],["Total equity","40"]] = none := by
  have p0 : parse_currency "0" = some 0 := by
    norm_num +decide [parse_currency, placeholderTokens, trimChars, cleanDigits,
      floatOfDigits, applyMult, containsSub, findSub, upChars, digitsToNat, digitVals]
  have p60 : parse_currency "60" = some 60 := by
    norm_num +decide [parse_currency, placeholderTokens, trimChars, cleanDigits,
      floatOfDigits, applyMult, containsSub, findSub, upChars, digitsToNat, digitVals]
  have p40 : parse_currency "40" = some 40 := by
    norm_num +decide [parse_currency, placeholderTokens, trimChars, cleanDigits,
      floatOfDigits, applyMult, containsSub, findSub, upChars, digitsToNat, digitVals]
  have hrows : balance_rows [["Total assets","0"],["Total liabilities","60"],["Total equity","40"]] =
      (some 0, some 60, some 40) := by
    norm_num +decide [balance_rows, lowerChars, containsSub, findSub, List.getD, p0, p60, p40]
  refine ⟨hrows, by norm_num, ?_⟩
  unfold balance_check
  rw [if_pos (by decide : balance_phrase "balance sheet" = true), hrows]
  norm_num

/-- C2 (amended): for every table on a page whose text contains a
balance-sheet phrase, if the row scan yields non-null parsed values for
"total assets", "total liabilities" and "total equity"/"total stockholders"
**and all three values are nonzero**, then a Balance Sheet Imbalance is
reported exactly when `|assets − (liabilities+equity)| > 0.01`; the check is
suppressed both when a governing value is null (unparseable) and when it
parses to zero, since the guard is Python truthiness. -/
theorem C2_theorem :
    ∀ (pt : String) (td : List (List String)) (a l e : ℚ),
    balance_phrase pt = true →
    balance_rows td = (some a, some l, some e) →
    a ≠ 0 → l ≠ 0 → e ≠ 0 →
    (((balance_check pt td).isSome ↔ |a - (l + e)| > 1/100) ∧
      (∀ d, balance_check pt td = some d →
        d.assets = a ∧ d.liabilities_equity = l + e ∧ d.difference = round2 |a - (l + e)|)) := by
  intro pt td a l e hph hrows ha hl he
  unfold balance_check
  rw [if_pos hph, hrows]
  dsimp only
  rw [if_pos ⟨ha, hl, he⟩]
  by_cases hgt : |a - (l + e)| > 1/100
  · rw [if_pos hgt]
    refine ⟨by simpa using hgt, ?_⟩
    intro d hd
    obtain rfl := Option.some.inj hd
    exact ⟨rfl, rfl, rfl⟩
  · rw [if_neg hgt]
    refine ⟨by simpa using hgt, ?_⟩
    intro d hd
    exact Option.noConfusion hd

/-- C2 witness: the amended check applied to a genuinely imbalanced table
(assets 100, liabilities 60, equity 30, all nonzero). -/
theorem C2_witness :
    balance_phrase "balance sheet" = true ∧
    balance_rows [["Total assets","100"],["Total liabilities","60"],["Total equity","30"]] =
      (some 100, some 60, some 30) ∧
    (100 : ℚ) ≠ 0 ∧ (60 : ℚ) ≠ 0 ∧ (30 : ℚ) ≠ 0 ∧
    (((balance_check "balance sheet"
        [["Total assets","100"],["Total liabilities","60"],["Total equity","30"]]).isSome ↔
      |(100 : ℚ) - (60 + 30)| > 1/100) ∧
      (∀ d, balance_check "balance sheet"
          [["Total assets","100"],["Total liabilities","60"],["Total equity","30"]] = some d →
        d.assets = 100 ∧ d.liabilities_equity = 60 + 30 ∧
          d.difference = round2 |(100 : ℚ) - (60 + 30)|)) := by
  have p100 : parse_currency "100" = some 100 := by
    norm_num +decide [parse_currency, placeholderTokens, trimChars, cleanDigits,
      floatOfDigits, applyMult, containsSub, findSub, upChars, digitsToNat, digitVals]
  have p60 : parse_currency "60" = some 60 := by
    norm_num +decide [parse_currency, placeholderTokens, trimChars, cleanDigits,
      floatOfDigits, applyMult, containsSub, findSub, upChars, digitsToNat, digitVals]
  have p30 : parse_currency "30" = some 30 := by
    norm_num +decide [parse_currency, placeholderTokens, trimChars, cleanDigits,
      floatOfDigits, applyMult, containsSub, findSub, upChars, digitsToNat, digitVals]
  have hrows : balance_rows [["Total assets","100"],["Total liabilities","60"],["Total equity","30"]] =
      (some 100, some 60, some 30) := by
    norm_num +decide [balance_rows, lowerChars, containsSub, findSub, List.getD, p100, p60, p30]
  exact ⟨by decide, hrows, by norm_num, by norm_num, by norm_num,
    C2_theorem "balance sheet" _ 100 60 30 (by decide) hrows
      (by norm_num) (by norm_num) (by norm_num)⟩

/-! ## Claim C4 -/

/-- `filterMap` over an enumerated list is `filterMap` over the index range,
reading elements back by position. -/
theorem enum_filterMap_eq {α β : Type} [Inhabited α] (l : List α) (g : Nat → α → Option β) :
    l.enum.filterMap (fun ip => g ip.1 ip.2) =
      (List.range l.length).filterMap (fun i => g i (l.getD i default)) := by
  induction l generalizing g with
  | nil => rfl
  | cons a t ih =>
    rw [List.enum_cons', List.length_cons, List.range_succ_eq_map,
      List.filterMap_cons, List.filterMap_cons, List.filterMap_map, List.filterMap_map]
    have hcomp :
        ((fun ip : Nat × α => g ip.1 ip.2) ∘ Prod.map (· + 1) id) =
          (fun ip : Nat × α => g (ip.1 + 1) ip.2) := by
      funext ip
      rfl
    have hcomp2 :
        ((fun i => g i ((a :: t).getD i default)) ∘ Nat.succ) =
          (fun i => g (i + 1) (t.getD i default)) := by
      funext i
      rfl
    rw [hcomp, hcomp2, ih (fun i x => g (i + 1) x)]
    rfl

/-- C4 counterexample: for the table `[["Item","Foo","2023"],
["Total assets","5","7"]]` the period token `"2023"` is found at header
column 2, so the claim says the recorded value is `normalize(row[2]) = 7`;
but server.py line 268 reads `row[i + 1]` where `i` is the period's position
in the detected-period list, so the recorded value is `normalize(row[1]) = 5`. -/
theorem C4_cex :
    extract_key_items [["Item","Foo","2023"],["Total assets","5","7"]] =
      [("Total assets", [("2023", some 5)])] ∧
    parse_currency "7" = some 7 ∧
    some (5 : ℚ) ≠ some (7 : ℚ) := by
  have e5 : parse_currency "5" = some 5 := by
    norm_num +decide [parse_currency, placeholderTokens, trimChars, cleanDigits,
      floatOfDigits, applyMult, containsSub, findSub, upChars, digitsToNat, digitVals]
  have e7 : parse_currency "7" = some 7 := by
    norm_num +decide [parse_currency, placeholderTokens, trimChars, cleanDigits,
      floatOfDigits, applyMult, containsSub, findSub, upChars, digitsToNat, digitVals]
  refine ⟨?_, e7, by norm_num⟩
  norm_num +decide [extract_key_items, extract_periods, extract_row_values,
    fin_keywords, has20dd, find20dd, containsSub, findSub, lowerChars, trimChars,
    List.getD, e5, List.filterMap_cons, List.filterMap_nil, List.headD]

/-- C4 (amended): for every table on a classified page, each row whose
lowercased label contains a financial-line-item keyword is recorded under
its literal (stripped) label with one value per detected period that fits
in the row, where the value for the period at position `i` of the
detected-period list is normalized from the row cell at index `i + 1` — the
periods' positions in detection order, **not** the header column where each
period token was found. -/
theorem C4_theorem :
    (∀ (periods row : List String),
      extract_row_values periods row =
        (List.range periods.length).filterMap
          (fun i => if i + 1 < row.length then
              some (periods.getD i "", parse_currency (row.getD (i + 1) ""))
            else none)) ∧
    extract_key_items [["Item","Foo","2023"],["Total assets","5","7"]] =
      [("Total assets", [("2023", some 5)])] := by
  constructor
  · intro periods row
    exact enum_filterMap_eq periods
      (fun i p => if i + 1 < row.length then
        some (p, parse_currency (row.getD (i + 1) "")) else none)
  · have e5 : parse_currency "5" = some 5 := by
      norm_num +decide [parse_currency, placeholderTokens, trimChars, cleanDigits,
        floatOfDigits, applyMult, containsSub, findSub, upChars, digitsToNat, digitVals]
    norm_num +decide [extract_key_items, extract_periods, extract_row_values,
      fin_keywords, has20dd, find20dd, containsSub, findSub, lowerChars, trimChars,
      List.getD, e5, List.filterMap_cons, List.filterMap_nil, List.headD]

/-! ## Claim C5 -/

/-- C5 counterexample: the claim asserts a case-insensitive `"K"` suffix
multiplies by 1,000; but the multiplier test at line 94 looks for `"M"`
**anywhere** in the uppercased text and takes precedence, so `"Sum 5K"`
(whose `"m"` in `"Sum"` triggers the millions branch) parses to 5,000,000,
not 5,000. -/
theorem C5_cex :
    parse_currency "Sum 5K" = some 5000000 ∧ parse_currency "Sum 5K" ≠ some 5000 := by
  have h : parse_currency "Sum 5K" = some 5000000 := by
    norm_num +decide [parse_currency, placeholderTokens, trimChars, cleanDigits,
      floatOfDigits, applyMult, containsSub, findSub, upChars, digitsToNat, digitVals]
  refine ⟨h, ?_⟩
  rw [h]
  intro hc
  exact absurd (Option.some.injEq _ _ ▸ hc) (by norm_num)

/-- C5 (amended): text containing both `"("` and `")"` yields the negation
of the magnitude, with the sign applied after magnitude parsing and
multiplier application; an `"M"` appearing case-insensitively **anywhere**
in the literal multiplies the magnitude by 1,000,000 unless the literal
also contains `"MANAGEMENT"`, and otherwise a `"K"` appearing anywhere
multiplies it by 1,000 — `normalize("(500)") == -500.0`,
`normalize("$1,000.00") == 1000.0`, and `normalize("1M") == 1,000,000.0`. -/
theorem C5_theorem :
    parse_currency "(500)" = some (-500) ∧
    parse_currency "$1,000.00" = some 1000 ∧
    parse_currency "1M" = some 1000000 ∧
    (∀ s : String, s.data ≠ [] →
      placeholderTokens.contains (trimChars s.data) = false →
      (trimChars s.data).contains '(' = true →
      (trimChars s.data).contains ')' = true →
      ∀ v : ℚ, floatOfDigits (cleanDigits (trimChars s.data)) = some v →
        parse_currency s = some (-(applyMult (trimChars s.data) v))) ∧
    (∀ (t : List Char) (v : ℚ),
      containsSub "M".data (upChars t) = true →
      containsSub "MANAGEMENT".data (upChars t) = false →
      applyMult t v = v * 1000000) ∧
    (∀ (t : List Char) (v : ℚ),
      (containsSub "M".data (upChars t) = true → containsSub "MANAGEMENT".data (upChars t) = true) →
      containsSub "K".data (upChars t) = true →
      applyMult t v = v * 1000) := by
  refine ⟨?_, ?_, ?_, ?_, ?_, ?_⟩
  · norm_num +decide [parse_currency, placeholderTokens, trimChars, cleanDigits,
      floatOfDigits, applyMult, containsSub, findSub, upChars, digitsToNat, digitVals]
  · norm_num +decide [parse_currency, placeholderTokens, trimChars, cleanDigits,
      floatOfDigits, applyMult, containsSub, findSub, upChars, digitsToNat, digitVals]
  · norm_num +decide [parse_currency, placeholderTokens, trimChars, cleanDigits,
      floatOfDigits, applyMult, containsSub, findSub, upChars, digitsToNat, digitVals]
  · intro s h0 h1 hop hcl v hfl
    have hc : cleanDigits (trimChars s.data) ≠ [] := by
      intro hnil
      have hnone : floatOfDigits ([] : List Char) = none := by decide
      rw [hnil, hnone] at hfl
      exact Option.noConfusion hfl
    have hop' : '(' ∈ trimChars s.data := by simpa using hop
    have hcl' : ')' ∈ trimChars s.data := by simpa using hcl
    unfold parse_currency
    rw [if_neg h0, if_neg (by simp only [h1]; exact Bool.false_ne_true), if_neg hc, hfl]
    simp [hop', hcl']
  · intro t v hM hMgmt
    simp [applyMult, hM, hMgmt]
  · intro t v hMimp hK
    by_cases hM : containsSub "M".data (upChars t) = true
    · simp [applyMult, hM, hMimp hM, hK]
    · rw [Bool.not_eq_true] at hM
      simp [applyMult, hM, hK]

/-- C5 witness: the sign clause applied at `"(500)"` (magnitude 500, no
multiplier), together with the discharged hypotheses. -/
theorem C5_witness :
    ("(500)" : String).data ≠ [] ∧
    placeholderTokens.contains (trimChars "(500)".data) = false ∧
    (trimChars "(500)".data).contains '(' = true ∧
    (trimChars "(500)".data).contains ')' = true ∧
    floatOfDigits (cleanDigits (trimChars "(500)".data)) = some 500 ∧
    parse_currency "(500)" = some (-(applyMult (trimChars "(500)".data) 500)) := by
  have hfl : floatOfDigits (cleanDigits (trimChars "(500)".data)) = some 500 := by
    norm_num +decide [trimChars, cleanDigits, floatOfDigits, digitsToNat, digitVals]
  exact ⟨by decide, by decide, by decide, by decide, hfl,
    C5_theorem.2.2.2.1 "(500)" (by decide) (by decide) (by decide) (by decide) 500 hfl⟩

/-! ## Claim C6 -/

/-- C6 counterexample: for the row `["Revenue","101","3"]` under periods
2023/2022, the unrounded percent change is `(101−3)/|3|×100 = 9800/3 =
3266.666…`, but the entry's `percent` field is `round(9800/3, 2) =
3266.67` (server.py line 745), which differs from the claimed formula
value. -/
theorem C6_cex :
    row_changes ["2023", "2022"] [("2023", 101), ("2022", 3)] =
      [("2023_vs_2022", mk_change 101 3)] ∧
    (mk_change 101 3).percent = some (326667/100) ∧
    (326667 : ℚ)/100 ≠ (101 - 3) / |(3 : ℚ)| * 100 := by
  have habs3 : |(3 : ℚ)| = 3 := abs_of_nonneg (by norm_num)
  refine ⟨rfl, ?_, ?_⟩
  · have h20 : ((101 : ℚ) - 3) / |(3 : ℚ)| * 100 = 980000/3 / 100 := by
      rw [habs3]
      norm_num
    norm_num [mk_change, h20, round2, rhe]
  · rw [habs3]
    norm_num

/-- C6 (amended): for every period-over-period change entry produced by the
comparative engine, the `percent` field equals
`round((current − previous)/|previous| × 100, 2)` — the formula value
rounded to two decimals — and is null exactly when the previous-period
value is zero; `material` is judged on the **unrounded** percent: it is
true exactly when the previous value is nonzero and the unrounded percent
exceeds 10 in absolute value, or |absolute change| > 100,000. -/
theorem C6_theorem :
    (∀ curr prev : ℚ,
      ((mk_change curr prev).percent = none ↔ prev = 0) ∧
      (prev ≠ 0 →
        (mk_change curr prev).percent = some (round2 ((curr - prev) / |prev| * 100))) ∧
      ((mk_change curr prev).material = true ↔
        ((prev ≠ 0 ∧ |(curr - prev) / |prev| * 100| > 10) ∨ |curr - prev| > 100000))) ∧
    row_changes ["2023", "2022"] [("2023", 120), ("2022", 100)] =
      [("2023_vs_2022", mk_change 120 100)] ∧
    (mk_change 120 100).percent = some 20 ∧
    (mk_change 120 100).material = true ∧
    (mk_change 120 100).absolute = 20 := by
  have habs100 : |(100 : ℚ)| = 100 := abs_of_nonneg (by norm_num)
  have habs20 : |(20 : ℚ)| = 20 := abs_of_nonneg (by norm_num)
  refine ⟨?_, ?_, ?_, ?_, ?_⟩
  · intro curr prev
    by_cases hp : prev = 0
    · subst hp
      refine ⟨by simp [mk_change], by simp, by simp [mk_change]⟩
    · refine ⟨by simp [mk_change, hp], fun _ => by simp [mk_change, hp], ?_⟩
      simp [mk_change, hp]
  · rfl
  · norm_num [mk_change, habs100, round2, rhe]
  · norm_num [mk_change, habs100, habs20]
  · norm_num [mk_change, round2, rhe]

/-- C6 witness: the percent formula clause applied at
(current, previous) = (120, 100). -/
theorem C6_witness :
    (100 : ℚ) ≠ 0 ∧
    (mk_change 120 100).percent = some (round2 ((120 - 100) / |(100 : ℚ)| * 100)) :=
  ⟨by norm_num, (C6_theorem.1 120 100).2.1 (by norm_num)⟩

/-! ## Claim C7 -/

/-- C7 (confirmed): for every document type (with any invoice amount) and
every set of found signature roles, a required signature label is satisfied
iff some found role's uppercase form contains one of the required label's
uppercase whitespace-split tokens as a substring, and compliance status is
`"COMPLETE"` iff every required signature is satisfied; in particular,
required `"CEO Signature"` is satisfied by found role `"CEO"` but not by
found role `"Authorized Signer"`. -/
theorem C7_theorem :
    (∀ (dt : String) (amt : Option ℚ) (roles : List String),
      compliance_status (required_signatures dt amt) roles = "COMPLETE" ↔
        ∀ r ∈ required_signatures dt amt, sig_satisfied r roles = true) ∧
    (∀ (r : String) (roles : List String),
      sig_satisfied r roles = true ↔
        ∃ role ∈ roles, ∃ kw ∈ splitWords (upChars r.data),
          containsSub kw (upChars role.data) = true) ∧
    sig_satisfied "CEO Signature" ["CEO"] = true ∧
    sig_satisfied "CEO Signature" ["Authorized Signer"] = false := by
  refine ⟨?_, ?_, by decide, by decide⟩
  · intro dt amt roles
    unfold compliance_status
    have hiff : missing_signatures (required_signatures dt amt) roles = [] ↔
        ∀ r ∈ required_signatures dt amt, sig_satisfied r roles = true := by
      unfold missing_signatures
      rw [List.filter_eq_nil_iff]
      constructor
      · intro h r hr
        have := h r hr
        simpa using this
      · intro h r hr
        simp [h r hr]
    by_cases hm : missing_signatures (required_signatures dt amt) roles = []
    · rw [if_pos hm]
      exact iff_of_true rfl (hiff.mp hm)
    · rw [if_neg hm]
      exact iff_of_false (by decide) (fun hall => hm (hiff.mpr hall))
  · intro r roles
    unfold sig_satisfied
    rw [List.any_eq_true]
    constructor
    · rintro ⟨role, hrole, hx⟩
      rw [List.any_eq_true] at hx
      obtain ⟨kw, hkw, hc⟩ := hx
      exact ⟨role, hrole, kw, hkw, hc⟩
    · rintro ⟨role, hrole, kw, hkw, hc⟩
      exact ⟨role, hrole, List.any_eq_true.mpr ⟨kw, hkw, hc⟩⟩

/-! ## Claim C8 -/

/-- A run of pages with no matching term leaves the scan unchanged except
for the page counter. -/
theorem search_pages_append (front : List String) (rest terms : List String) (n : Nat)
    (h : ∀ t ∈ front, ∀ term ∈ terms,
      containsSub (lowerChars term.data) (lowerChars t.data) = false) :
    search_pages (front ++ rest) terms n = search_pages rest terms (n + front.length) := by
  induction front generalizing n with
  | nil => simp
  | cons text ft ih =>
    have hnone : terms.findSome?
        (fun term => findSub (lowerChars term.data) (lowerChars text.data)) = none := by
      rw [List.findSome?_eq_none_iff]
      intro term hterm
      have := h text (List.mem_cons_self _ _) term hterm
      unfold containsSub at this
      exact Option.not_isSome_iff_eq_none.mp (by simp [this])
    have hstep : search_pages ((text :: ft) ++ rest) terms n
        = search_pages (ft ++ rest) terms (n + 1) := by
      rw [List.cons_append]
      conv_lhs => unfold search_pages
      rw [hnone]
    rw [hstep, ih (n + 1) (fun t ht term hterm => h t (List.mem_cons_of_mem _ ht) term hterm)]
    have harith : n + 1 + ft.length = n + (text :: ft).length := by
      simp only [List.length_cons]
      omega
    rw [harith]

/-- `search_pages` reports the all-nulls record exactly when no term occurs
in any page. -/
theorem search_pages_none_iff (pages terms : List String) (n : Nat) :
    search_pages pages terms n = ⟨false, none, none⟩ ↔
      ∀ text ∈ pages, ∀ term ∈ terms,
        containsSub (lowerChars term.data) (lowerChars text.data) = false := by
  induction pages generalizing n with
  | nil => simp [search_pages]
  | cons text rest ih =>
    unfold search_pages
    rcases hf : terms.findSome?
        (fun term => findSub (lowerChars term.data) (lowerChars text.data)) with _ | pos
    · rw [hf]
      dsimp only
      rw [List.findSome?_eq_none_iff] at hf
      have hhead : ∀ term ∈ terms,
          containsSub (lowerChars term.data) (lowerChars text.data) = false := by
        intro term hterm
        unfold containsSub
        rw [hf term hterm]
        rfl
      rw [ih (n + 1)]
      simp only [List.forall_mem_cons]
      exact ⟨fun hr => ⟨hhead, hr⟩, fun hp => hp.2⟩
    · rw [hf]
      dsimp only
      obtain ⟨term, hterm, hft⟩ := List.exists_of_findSome?_eq_some hf
      refine iff_of_false (by simp) ?_
      intro hall
      have := hall text (List.mem_cons_self _ _) term hterm
      unfold containsSub at this
      rw [hft] at this
      exact Bool.noConfusion this

/-- The first listed term that occurs in the page determines the position
returned for that page. -/
theorem findSome?_first_term (tf : List String) (term : String) (tr : List String)
    (g : String → Option Nat) (pos : Nat)
    (hskip : ∀ t ∈ tf, g t = none) (hhit : g term = some pos) :
    (tf ++ term :: tr).findSome? g = some pos := by
  induction tf with
  | nil =>
    rw [List.nil_append, List.findSome?_cons, hhit]
  | cons t ft ih =>
    rw [List.cons_append, List.findSome?_cons, hskip t (List.mem_cons_self _ _)]
    exact ih (fun t' ht' => hskip t' (List.mem_cons_of_mem _ ht'))

set_option maxRecDepth 4000

/-- C8 (confirmed): the term locator scans pages in ascending order and,
within a page, evaluates terms in caller-supplied order: (1) the all-nulls
`found: false` record is returned exactly when no term occurs in any page;
(2) if no term occurs in the pages before `text`, some term occurs in
`text`, and `term` is the first listed term occurring in `text` with first
occurrence at `pos`, the result is page `front.length + 1` with the excerpt
window around `pos`, regardless of the remaining pages and of where
later-listed terms occur in `text`; (3) concretely, for terms
`["item 1a", "risk factors"]` and a third page in which `"risk factors"`
textually precedes `"item 1a"`, the hit is on page 3 with the excerpt drawn
around `"item 1a"`, excluding the earlier `"risk factors"` text. -/
theorem C8_theorem :
    (∀ (pages terms : List String),
      search_text_in_pdf pages terms = ⟨false, none, none⟩ ↔
        ∀ text ∈ pages, ∀ term ∈ terms,
          containsSub (lowerChars term.data) (lowerChars text.data) = false) ∧
    (∀ (front : List String) (text : String) (rest : List String)
        (tf : List String) (term : String) (tr : List String) (pos : Nat),
      (∀ t ∈ front, ∀ tm ∈ tf ++ term :: tr,
        containsSub (lowerChars tm.data) (lowerChars t.data) = false) →
      (∀ t' ∈ tf, findSub (lowerChars t'.data) (lowerChars text.data) = none) →
      findSub (lowerChars term.data) (lowerChars text.data) = some pos →
      search_text_in_pdf (front ++ text :: rest) (tf ++ term :: tr) =
        ⟨true, some (front.length + 1), some (String.mk (excerpt_of text.data pos))⟩) ∧
    search_text_in_pdf
      ["alpha", "beta",
       "risk factors" ++ String.mk (List.replicate 101 '.') ++ "item 1a"]
      ["item 1a", "risk factors"] =
      ⟨true, some 3, some (String.mk (List.replicate 100 '.' ++ "item 1a".data))⟩ := by
  refine ⟨?_, ?_, by decide⟩
  · intro pages terms
    exact search_pages_none_iff pages terms 0
  · intro front text rest tf term tr pos hfront hskip hhit
    unfold search_text_in_pdf
    rw [search_pages_append front (text :: rest) (tf ++ term :: tr) 0 hfront]
    unfold search_pages
    rw [findSome?_first_term tf term tr _ pos hskip hhit]
    rw [Nat.zero_add]

/-- C8 witness: part (2) applied to a two-page document where only the
second page matches, with the second listed term occurring earlier in the
page text than the first listed term. -/
theorem C8_witness :
    (∀ t ∈ (["zz"] : List String), ∀ tm ∈ (["bb", "aa"] : List String),
      containsSub (lowerChars tm.data) (lowerChars t.data) = false) ∧
    findSub (lowerChars ("bb" : String).data) (lowerChars ("aa bb" : String).data) = some 3 ∧
    search_text_in_pdf ["zz", "aa bb"] ["bb", "aa"] =
      ⟨true, some (1 + 1), some (String.mk (excerpt_of ("aa bb" : String).data 3))⟩ :=
  ⟨by decide, by decide,
    C8_theorem.2.1 ["zz"] "aa bb" [] [] "bb" ["aa"] 3
      (by decide) (by decide) (by decide)⟩

/-! ## Claim C9 -/

/-- If every keyword in `front` fails (no occurrence before the match, or no
line break after it) and `kw` succeeds, the context loop answers with `kw`'s
segment. -/
theorem context_loop_success (text : List Char) (pos : Nat) (front : List String)
    (kw : String) (rest : List String) (cp off : Nat)
    (hfail : ∀ k ∈ front, kw_fail text pos k = true)
    (hfind : rfindSub kw.data ((lowerChars text).take pos) = some cp)
    (hnl : findSub ['\n'] (text.drop cp) = some off) :
    context_loop text pos (front ++ kw :: rest) =
      String.mk (trimChars ((text.drop cp).take off)) := by
  induction front with
  | nil =>
    rw [List.nil_append]
    unfold context_loop
    rw [hfind]
    dsimp only
    rw [hnl]
  | cons k fr ih =>
    rw [List.cons_append]
    unfold context_loop
    have hk := hfail k (List.mem_cons_self _ _)
    unfold kw_fail at hk
    rcases hr : rfindSub k.data ((lowerChars text).take pos) with _ | cp'
    · dsimp only
      exact ih (fun k' hk' => hfail k' (List.mem_cons_of_mem _ hk'))
    · rw [hr] at hk
      dsimp only at hk ⊢
      rcases hn : findSub ['\n'] (text.drop cp') with _ | off'
      · dsimp only
        exact ih (fun k' hk' => hfail k' (List.mem_cons_of_mem _ hk'))
      · rw [hn] at hk
        exact absurd hk (by simp)

/-- If every keyword fails, the context loop answers "Unknown section". -/
theorem context_loop_fail (text : List Char) (pos : Nat) (kws : List String)
    (hfail : ∀ k ∈ kws, kw_fail text pos k = true) :
    context_loop text pos kws = "Unknown section" := by
  induction kws with
  | nil => rfl
  | cons k fr ih =>
    unfold context_loop
    have hk := hfail k (List.mem_cons_self _ _)
    unfold kw_fail at hk
    rcases hr : rfindSub k.data ((lowerChars text).take pos) with _ | cp'
    · dsimp only
      exact ih (fun k' hk' => hfail k' (List.mem_cons_of_mem _ hk'))
    · rw [hr] at hk
      dsimp only at hk ⊢
      rcases hn : findSub ['\n'] (text.drop cp') with _ | off'
      · dsimp only
        exact ih (fun k' hk' => hfail k' (List.mem_cons_of_mem _ hk'))
      · rw [hn] at hk
        exact absurd hk (by simp)

/-- C9 counterexample: in the page text
`"item 7\nxx section 9\nyy going concern"`, the match for
`"going concern"` is at position 23; the nearest preceding context token is
`"section "` at position 10 (the claim's context would be "section 9"),
but the loop at server.py line 618 tries `"note "`, then `"item "`, then
`"section "` in that fixed order, so it returns `"item 7"` from the
`"item "` occurrence at position 0. -/
theorem C9_cex :
    red_flag_context_for "item 7\nxx section 9\nyy going concern" "going concern" =
      some "item 7" ∧
    ("item 7" : String) ≠ "section 9" ∧
    rfindSub "section ".data
      ((lowerChars ("item 7\nxx section 9\nyy going concern" : String).data).take 23) =
      some 10 ∧
    rfindSub "item ".data
      ((lowerChars ("item 7\nxx section 9\nyy going concern" : String).data).take 23) =
      some 0 ∧
    findSub (lowerChars ("going concern" : String).data)
      (lowerChars ("item 7\nxx section 9\nyy going concern" : String).data) = some 23 := by
  refine ⟨by decide, by decide, by decide, by decide, by decide⟩

/-- C9 (amended): for every red-flag phrase match on a page, the reported
context is determined by trying `"note "`, `"item "`, `"section "` in that
fixed priority order — not by overall nearness: the first keyword whose last
occurrence before the match position is followed by a line break yields the
text from that occurrence up to the line break (trimmed); and the context is
`"Unknown section"` when every keyword either has no occurrence before the
match or no line break after its last such occurrence. -/
theorem C9_theorem :
    (∀ (text : String) (pos : Nat) (front : List String) (kw : String)
        (rest : List String) (cp off : Nat),
      context_keywords = front ++ kw :: rest →
      (∀ k ∈ front, kw_fail text.data pos k = true) →
      rfindSub kw.data ((lowerChars text.data).take pos) = some cp →
      findSub ['\n'] (text.data.drop cp) = some off →
      red_flag_context text pos = String.mk (trimChars ((text.data.drop cp).take off))) ∧
    (∀ (text : String) (pos : Nat),
      (∀ k ∈ context_keywords, kw_fail text.data pos k = true) →
      red_flag_context text pos = "Unknown section") ∧
    red_flag_context_for "item 7\nxx section 9\nyy going concern" "going concern" =
      some "item 7" := by
  refine ⟨?_, ?_, by decide⟩
  · intro text pos front kw rest cp off hsplit hfail hfind hnl
    unfold red_flag_context
    rw [hsplit]
    exact context_loop_success text.data pos front kw rest cp off hfail hfind hnl
  · intro text pos hfail
    exact context_loop_fail text.data pos context_keywords hfail

/-- C9 witness: the priority clause applied to the counterexample text —
`"note "` fails, `"item "` succeeds at position 0 with the line break at
offset 6, and the context is the trimmed segment `"item 7"`. -/
theorem C9_witness :
    context_keywords = ["note "] ++ "item " :: ["section "] ∧
    (∀ k ∈ (["note "] : List String),
      kw_fail ("item 7\nxx section 9\nyy going concern" : String).data 23 k = true) ∧
    rfindSub "item ".data
      ((lowerChars ("item 7\nxx section 9\nyy going concern" : String).data).take 23) =
      some 0 ∧
    findSub ['\n'] (("item 7\nxx section 9\nyy going concern" : String).data.drop 0) =
      some 6 ∧
    red_flag_context "item 7\nxx section 9\nyy going concern" 23 =
      String.mk (trimChars
        ((("item 7\nxx section 9\nyy going concern" : String).data.drop 0).take 6)) :=
  ⟨by decide, by decide, by decide, by decide,
    C9_theorem.1 "item 7\nxx section 9\nyy going concern" 23 ["note "] "item " ["section "]
      0 6 (by decide) (by decide) (by decide) (by decide)⟩

end PdfCompliance
